import Mathlib

/-!
Verification of the shot classification and aggregation core of the
nba-shot-charts repository (src/classes/shotchart.py together with the
constants of src/enums/court_dimensions.py), as a shallow embedding.

Modelling conventions:
* One input record (a DataFrame row) becomes the structure ShotRow.
* Python dictionaries holding the per-label statistics become association
  lists in insertion order; a value is either the integer sentinel 0 that
  the distance and period tables are pre-initialised with (Entry.intVal)
  or a statistics record (Entry.statVal).
* Plain Python integer arithmetic is modelled with Nat and Int; true
  division of plain Python integers raises ZeroDivisionError on a zero
  denominator, so it is modelled as a checked operation returning
  Except. Divisions whose operands are numpy scalars (the pandas column
  sums of the points pass and the total of the frequency pass) do not
  raise on a zero denominator (numpy yields inf or nan with a warning),
  so they are modelled with the total division of Rat, whose junk value
  on a zero denominator stands for the defined non-aborting result.
* Fatal Python exceptions (TypeError on subscripting the integer
  sentinel, IndexError on positional lookup past the end of a groupby
  result, ZeroDivisionError) are modelled as Except.error with the name
  of the exception.
* Python class CourtDimensions derives from IntEnum, and IntEnum member
  creation converts the value with int, truncating toward zero.  So the
  running program sees FREE_THROW_LINE = 142 (not 142.5),
  FRONTCOURT_BOUNDARY = -47 (not -47.5), HALFCOURT_BOUNDARY = 422 and
  RADIUS_3ARC = 237; the embedding uses those truncated values.
-/

/-- One shot record as consumed by the core: the columns of the fetched
DataFrame that the processing passes read. -/
structure ShotRow where
  shot_type : String
  event_type : String
  action_type : String
  shot_distance : ℤ
  period : ℤ
  loc_x : ℚ
  loc_y : ℚ
  shot_made_flag : ℤ
  shot_attempted_flag : ℤ
deriving DecidableEq, Repr

/-- The per-label statistics dictionary created by process_shots_by_mode:
dict.fromkeys(["made", "missed", "attempted", "percent", "frequency"], 0). -/
structure StatRecord where
  made : ℕ
  missed : ℕ
  attempted : ℕ
  percent : ℚ
  frequency : ℚ
deriving DecidableEq, Repr

/-- The freshly initialised all-zero statistics record. -/
def freshRec : StatRecord := ⟨0, 0, 0, 0, 0⟩

/-- A table key: the Python dictionaries are keyed by strings (type,
distance, breakdown modes) or by integers (period mode). -/
inductive Label where
  | str (s : String)
  | num (n : ℤ)
deriving DecidableEq, Repr

/-- A table value: either the integer sentinel (the distance and period
tables are pre-initialised with the plain int 0) or a statistics record. -/
inductive Entry where
  | intVal (n : ℤ)
  | statVal (r : StatRecord)
deriving DecidableEq, Repr

/-- A Python dict from labels to entries, in insertion order. -/
abbrev Table := List (Label × Entry)

deriving instance DecidableEq for Except

/-- First-match lookup, the reading semantics of a Python dict. -/
def lookupEntry : Table → Label → Option Entry
  | [], _ => none
  | (k', v) :: rest, k => if k' = k then some v else lookupEntry rest k

/-- Python dict assignment: replace the value of an existing key in
place, append a new key at the end. -/
def setEntry : Table → Label → Entry → Table
  | [], k, v => [(k, v)]
  | (k', v') :: rest, k, v =>
      if k' = k then (k, v) :: rest else (k', v') :: setEntry rest k v

/-- Substring test on character lists, used for the Python operator
(needle in haystack) on strings: leading-segment test. -/
def leadSeg : List Char → List Char → Bool
  | [], _ => true
  | _ :: _, [] => false
  | a :: as, b :: bs => a == b && leadSeg as bs

/-- Substring test on character lists: needle occurs somewhere. -/
def subSeg (needle : List Char) : List Char → Bool
  | [] => needle.isEmpty
  | b :: bs => leadSeg needle (b :: bs) || subSeg needle bs

/-- The Python membership test (needle in haystack) on strings. -/
def strContains (hay needle : String) : Bool := subSeg needle.data hay.data

namespace CourtDimensions

/-- SIDE_BOUNDARY = 250. -/
def SIDE_BOUNDARY : ℚ := 250
/-- CORNER3_X = 220. -/
def CORNER3_X : ℚ := 220
/-- CORNER3_Y = 90. -/
def CORNER3_Y : ℚ := 90
/-- OUTER_PAINT = 80. -/
def OUTER_PAINT : ℚ := 80
/-- INNER_PAINT = 60. -/
def INNER_PAINT : ℚ := 60
/-- FREE_THROW_LINE = 142.5 truncated by IntEnum to 142. -/
def FREE_THROW_LINE : ℚ := 142
/-- FRONTCOURT_BOUNDARY = -47.5 truncated by IntEnum (toward zero) to -47. -/
def FRONTCOURT_BOUNDARY : ℚ := -47
/-- BACKBOARD = -30. -/
def BACKBOARD : ℚ := -30
/-- DEEP3_Y = 300. -/
def DEEP3_Y : ℚ := 300
/-- DEEP3_X = 100. -/
def DEEP3_X : ℚ := 100
/-- RIGHT_WING_3 = 125. -/
def RIGHT_WING_3 : ℚ := 125
/-- HALFCOURT_BOUNDARY = 422.5 truncated by IntEnum to 422. -/
def HALFCOURT_BOUNDARY : ℚ := 422
/-- RADIUS_3ARC = ((238-90)/2) + (440 ** 2)/(8 * (238-90)) = 237.5135...,
truncated by IntEnum to 237. -/
def RADIUS_3ARC : ℚ := 237

end CourtDimensions

/-- The key selected by process_shots_by_mode for one row, per mode
(lines 321-375 of shotchart.py).  The final else branch destructures
(key, event_type) = row, which is the period mode. -/
def modeKey (mode : String) (row : ShotRow) : Label :=
  if mode = "type" then
    if strContains row.action_type "Layup" then .str "Layup"
    else if strContains row.action_type "Dunk" then .str "Dunk"
    else .str row.shot_type
  else if mode = "distance" then
    if 0 ≤ row.shot_distance ∧ row.shot_distance < 5 then .str "0 - 5"
    else if 5 ≤ row.shot_distance ∧ row.shot_distance < 10 then .str "5 - 10"
    else if 10 ≤ row.shot_distance ∧ row.shot_distance < 15 then .str "10 - 15"
    else if 15 ≤ row.shot_distance ∧ row.shot_distance < 20 then .str "15 - 20"
    else if 20 ≤ row.shot_distance ∧ row.shot_distance < 25 then .str "20 - 25"
    else if 25 ≤ row.shot_distance ∧ row.shot_distance < 30 then .str "25 - 30"
    else .str "30+"
  else if mode = "breakdown" then
    if row.action_type = "Jump Shot" ∧ row.shot_type = "2PT Field Goal" then
      .str "Jump Shot Mid-Range"
    else if row.action_type = "Jump Shot" ∧ row.shot_type = "3PT Field Goal" then
      .str "Jump Shot 3PT"
    else if strContains row.action_type "Dunk" then .str "Dunk"
    else if strContains row.action_type "Floating" then .str "Floater"
    else if strContains row.action_type "Hook Shot" then .str "Hook Shot"
    else if strContains row.action_type "Fadeaway" ∧ row.shot_type = "2PT Field Goal" then
      .str "Fadeaway Mid-Range"
    else if strContains row.action_type "Fadeaway" ∧ row.shot_type = "3PT Field Goal" then
      .str "Fadeaway 3PT"
    else if (strContains row.action_type "Pullup" ∨ strContains row.action_type "Pull-Up")
        ∧ row.shot_type = "2PT Field Goal" then
      .str "Pullup Mid-Range"
    else if (strContains row.action_type "Pullup" ∨ strContains row.action_type "Pull-Up")
        ∧ row.shot_type = "3PT Field Goal" then
      .str "Pullup 3PT"
    else if strContains row.action_type "Step Back" ∧ row.shot_type = "2PT Field Goal" then
      .str "Step Back Mid-Range"
    else if strContains row.action_type "Step Back" ∧ row.shot_type = "3PT Field Goal" then
      .str "Step Back 3PT"
    else if strContains row.action_type "Layup" then .str "Layup"
    else .str row.action_type
  else .num row.period

/-- The made/missed increment of one update (lines 383-386): event types
other than "Made Shot" and "Missed Shot" change nothing. -/
def bump (r : StatRecord) (ev : String) : StatRecord :=
  if ev = "Made Shot" then { r with made := r.made + 1 }
  else if ev = "Missed Shot" then { r with missed := r.missed + 1 }
  else r

/-- The recomputation of attempted and percent at the end of one update
(lines 389-390), on a record whose division is known to succeed. -/
def finishRec (r : StatRecord) : StatRecord :=
  { r with attempted := r.made + r.missed,
           percent := (r.made : ℚ) / ((r.made + r.missed : ℕ) : ℚ) }

/-- Recompute attempted and percent (lines 389-390).  attempted, made and
missed are plain Python ints here, so made / attempted raises
ZeroDivisionError when attempted = 0. -/
def updRecord (t : Table) (k : Label) (r : StatRecord) (ev : String) :
    Except String Table :=
  let r1 := bump r ev
  if r1.made + r1.missed = 0 then .error "ZeroDivisionError"
  else .ok (setEntry t k (.statVal (finishRec r1)))

/-- One update of process_shots_by_mode (lines 377-390).  A missing key,
or a key whose value equals the plain int 0, is re-initialised to a
fresh record; a non-zero plain int value would be subscripted and raise
TypeError. -/
def updateTable (t : Table) (k : Label) (ev : String) : Except String Table :=
  match lookupEntry t k with
  | none => updRecord t k freshRec ev
  | some (.intVal n) => if n = 0 then updRecord t k freshRec ev else .error "TypeError"
  | some (.statVal r) => updRecord t k r ev

/-- The scan of process_shots_by_mode over the rows (lines 321-390). -/
def process_shots_by_mode (mode : String) : Table → List ShotRow → Except String Table
  | t, [] => .ok t
  | t, row :: rest =>
      match updateTable t (modeKey mode row) row.event_type with
      | .ok t' => process_shots_by_mode mode t' rest
      | .error e => .error e

/-- process_column_frequency (lines 392-400): one pass over the keys in
order, setting frequency = attempted / total_shots.  Subscripting an
integer sentinel value raises TypeError.  total_shots is a numpy scalar,
so division by a zero total yields a defined non-aborting value (inf or
nan), modelled by total Rat division. -/
def process_column_frequency : Table → ℤ → Except String Table
  | [], _ => .ok []
  | (_, .intVal _) :: _, _ => .error "TypeError"
  | (k, .statVal r) :: rest, total =>
      match process_column_frequency rest total with
      | .ok rest' =>
          .ok ((k, .statVal { r with frequency := (r.attempted : ℚ) / (total : ℚ) }) :: rest')
      | .error e => .error e

/-- The pre-initialised distance table (line 58-59):
OrderedDict.fromkeys(distances, 0). -/
def distanceInit : Table :=
  [(.str "0 - 5", .intVal 0), (.str "5 - 10", .intVal 0), (.str "10 - 15", .intVal 0),
   (.str "15 - 20", .intVal 0), (.str "20 - 25", .intVal 0), (.str "25 - 30", .intVal 0),
   (.str "30+", .intVal 0)]

/-- The pre-initialised period table (lines 62-63):
OrderedDict.fromkeys([1, 2, 3, 4], 0). -/
def periodInit : Table :=
  [(.num 1, .intVal 0), (.num 2, .intVal 0), (.num 3, .intVal 0), (.num 4, .intVal 0)]

/-- Sum of the SHOT_ATTEMPTED_FLAG column, the normalising total of every
frequency computation. -/
def sumAttFlags (rows : List ShotRow) : ℤ := (rows.map (·.shot_attempted_flag)).sum

/-- Sum of the SHOT_MADE_FLAG column. -/
def sumMadeFlags (rows : List ShotRow) : ℤ := (rows.map (·.shot_made_flag)).sum

/-- process_shots_by_type (lines 229-247): mode scan from the empty
shot_types dict, then frequency finalisation with the batch total. -/
def process_shots_by_type (rows : List ShotRow) : Except String Table :=
  match process_shots_by_mode "type" [] rows with
  | .ok t => process_column_frequency t (sumAttFlags rows)
  | .error e => .error e

/-- process_shots_by_breakdown (lines 249-267). -/
def process_shots_by_breakdown (rows : List ShotRow) : Except String Table :=
  match process_shots_by_mode "breakdown" [] rows with
  | .ok t => process_column_frequency t (sumAttFlags rows)
  | .error e => .error e

/-- process_shots_by_distance (lines 269-287): mode scan from the
pre-initialised distance table, then frequency finalisation. -/
def process_shots_by_distance (rows : List ShotRow) : Except String Table :=
  match process_shots_by_mode "distance" distanceInit rows with
  | .ok t => process_column_frequency t (sumAttFlags rows)
  | .error e => .error e

/-- process_shots_by_period (lines 289-307). -/
def process_shots_by_period (rows : List ShotRow) : Except String Table :=
  match process_shots_by_mode "period" periodInit rows with
  | .ok t => process_column_frequency t (sumAttFlags rows)
  | .error e => .error e

/-- The three points dictionaries of the points pass.  The pandas column
sums are numpy integers and the derived ratios numpy floats; divisions
here never raise (a zero denominator yields inf or nan), modelled with
total Rat division. -/
structure PointsRecord where
  made : ℤ
  missed : ℤ
  attempted : ℤ
  percent : ℚ
  frequency : ℚ
deriving DecidableEq, Repr

/-- The all-zero points record: dict.fromkeys(field_goal_keys, 0). -/
def freshPointsRec : PointsRecord := ⟨0, 0, 0, 0, 0⟩

/-- The state the points pass writes: the two raw record subsets kept for
plotting plus the three points dictionaries. -/
structure PointsState where
  shots_made : List ShotRow
  shots_missed : List ShotRow
  two_points : PointsRecord
  three_points : PointsRecord
  total_points : PointsRecord
deriving DecidableEq, Repr

/-- Insert a string into a sorted list of strings. -/
def insertSorted (s : String) : List String → List String
  | [] => [s]
  | t :: ts => if s < t then s :: t :: ts else t :: insertSorted s ts

/-- Insertion sort on strings. -/
def sortStrings : List String → List String
  | [] => []
  | s :: ss => insertSorted s (sortStrings ss)

/-- The sorted distinct SHOT_TYPE values: the index of the Series
returned by shotchart_df.groupby("SHOT_TYPE")[col].sum() (pandas groupby
sorts the group keys). -/
def sortedShotTypes (rows : List ShotRow) : List String :=
  sortStrings ((rows.map (·.shot_type)).dedup)

/-- Positional indexing sum()[i] into the per-group column sums: the sum
of the column over the rows of the i-th sorted group, IndexError when
there are at most i groups. -/
def groupSum (rows : List ShotRow) (col : ShotRow → ℤ) (i : ℕ) : Except String ℤ :=
  match (sortedShotTypes rows).get? i with
  | some ty => .ok ((rows.filter (fun r => r.shot_type = ty)).map col).sum
  | none => .error "IndexError"

/-- Lines 96-99: the 2PT branch of the points pass, guarded by membership
of "2PT Field Goal" in the distinct shot types, reading the group sums
at position 0. -/
def twoPointsCalc (rows : List ShotRow) : Except String PointsRecord :=
  if "2PT Field Goal" ∈ rows.map (·.shot_type) then
    match groupSum rows (·.shot_made_flag) 0, groupSum rows (·.shot_attempted_flag) 0 with
    | .ok m, .ok a => .ok ⟨m, 0, a, (m : ℚ) / (a : ℚ), 0⟩
    | .error e, _ => .error e
    | _, .error e => .error e
  else .ok freshPointsRec

/-- Lines 102-105: the 3PT branch of the points pass, reading the group
sums at position 1.  When the batch holds no 2PT shot there is only one
group and the positional lookup at 1 raises IndexError. -/
def threePointsCalc (rows : List ShotRow) : Except String PointsRecord :=
  if "3PT Field Goal" ∈ rows.map (·.shot_type) then
    match groupSum rows (·.shot_made_flag) 1, groupSum rows (·.shot_attempted_flag) 1 with
    | .ok m, .ok a => .ok ⟨m, 0, a, (m : ℚ) / (a : ℚ), 0⟩
    | .error e, _ => .error e
    | _, .error e => .error e
  else .ok freshPointsRec

/-- process_shots_by_points (lines 85-114).  Note lines 92-93: the subset
bound to shots_missed is the rows with SHOT_MADE_FLAG == 1 and the one
bound to shots_made is the rows with SHOT_MADE_FLAG == 0. -/
def process_shots_by_points (rows : List ShotRow) : Except String PointsState :=
  let shots_missed := rows.filter (fun r => r.shot_made_flag == 1)
  let shots_made := rows.filter (fun r => r.shot_made_flag == 0)
  match twoPointsCalc rows with
  | .error e => .error e
  | .ok two =>
    match threePointsCalc rows with
    | .error e => .error e
    | .ok three =>
      let totalM := sumMadeFlags rows
      let totalA := sumAttFlags rows
      .ok { shots_made := shots_made
            shots_missed := shots_missed
            two_points := { two with frequency := (two.attempted : ℚ) / (totalA : ℚ) }
            three_points := { three with frequency := (three.attempted : ℚ) / (totalA : ℚ) }
            total_points := ⟨totalM, 0, totalA, (totalM : ℚ) / (totalA : ℚ), 0⟩ }

/-- The fourteen zone labels of process_shots_by_zones. -/
inductive Zone where
  | right_corner_3
  | left_corner_3
  | paint
  | right_block
  | left_block
  | high_post
  | right_elbow
  | left_elbow
  | right_wing_3
  | left_wing_3
  | top_of_key_3
  | straight_deep_3
  | right_deep_3
  | left_deep_3
deriving DecidableEq, Repr

/-- The fourteen zone accumulators of the ShotChart object. -/
structure ZonesState where
  right_corner_3 : StatRecord
  right_block : StatRecord
  right_elbow : StatRecord
  right_wing_3 : StatRecord
  right_deep_3 : StatRecord
  left_corner_3 : StatRecord
  left_block : StatRecord
  left_elbow : StatRecord
  left_wing_3 : StatRecord
  left_deep_3 : StatRecord
  paint : StatRecord
  high_post : StatRecord
  top_of_key_3 : StatRecord
  straight_deep_3 : StatRecord
deriving DecidableEq, Repr

/-- All fourteen accumulators start as all-zero records (lines 36-49). -/
def initZones : ZonesState :=
  ⟨freshRec, freshRec, freshRec, freshRec, freshRec, freshRec, freshRec,
   freshRec, freshRec, freshRec, freshRec, freshRec, freshRec, freshRec⟩

/-- The polar radius sqrt(x * x + y * y) of is_shot_inside_3pt_arc
(line 416), with the float arithmetic idealised over the reals. -/
noncomputable def polarRadius (x y : ℚ) : ℝ :=
  Real.sqrt ((x : ℝ) * (x : ℝ) + (y : ℝ) * (y : ℝ))

/-- The angle computed by is_shot_inside_3pt_arc (lines 419-424):
degrees(atan(y / x)) shifted by 180 when negative, and 90 when x = 0. -/
noncomputable def shotAngle (x y : ℚ) : ℝ :=
  if x = 0 then 90
  else
    let a := Real.arctan ((y : ℝ) / (x : ℝ)) * (180 / Real.pi)
    if a < 0 then 180 + a else a

/-- is_shot_inside_3pt_arc (lines 402-432): the angle lies between the
two given angles and the polar radius is below RADIUS_3ARC. -/
def is_shot_inside_3pt_arc (x y : ℚ) (startAngle endAngle : ℚ) : Prop :=
  shotAngle x y ≥ (startAngle : ℝ) ∧ shotAngle x y ≤ (endAngle : ℝ) ∧
  polarRadius x y < ((CourtDimensions.RADIUS_3ARC : ℚ) : ℝ)

/-- Right corner 3 test (lines 126-127). -/
def cond_right_corner_3 (x y : ℚ) : Prop :=
  (x > -CourtDimensions.SIDE_BOUNDARY ∧ x < -CourtDimensions.CORNER3_X) ∧
  (y < CourtDimensions.CORNER3_Y ∧ y > CourtDimensions.FRONTCOURT_BOUNDARY)

/-- Left corner 3 test (lines 133-134). -/
def cond_left_corner_3 (x y : ℚ) : Prop :=
  (x < CourtDimensions.SIDE_BOUNDARY ∧ x > CourtDimensions.CORNER3_X) ∧
  (y < CourtDimensions.CORNER3_Y ∧ y > CourtDimensions.FRONTCOURT_BOUNDARY)

/-- Paint test (lines 140-141). -/
def cond_paint (x y : ℚ) : Prop :=
  (x > -CourtDimensions.OUTER_PAINT ∧ x < CourtDimensions.OUTER_PAINT) ∧
  (y < CourtDimensions.FREE_THROW_LINE ∧ y > CourtDimensions.FRONTCOURT_BOUNDARY)

/-- Right post/block test (lines 147-148). -/
def cond_right_block (x y : ℚ) : Prop :=
  (x > -220 ∧ x < -CourtDimensions.OUTER_PAINT) ∧
  (y < CourtDimensions.CORNER3_Y ∧ y > CourtDimensions.FRONTCOURT_BOUNDARY)

/-- Left post/block test (lines 154-155): every comparison reads LOC_Y,
none constrains LOC_X. -/
def cond_left_block (x y : ℚ) : Prop :=
  (y < 219 ∧ y < CourtDimensions.OUTER_PAINT) ∧
  (y < CourtDimensions.CORNER3_Y ∧ y > CourtDimensions.FRONTCOURT_BOUNDARY)

/-- High post test (lines 161-163). -/
def cond_high_post (x y : ℚ) : Prop :=
  x > -CourtDimensions.OUTER_PAINT ∧ x < CourtDimensions.OUTER_PAINT ∧
  y > CourtDimensions.FREE_THROW_LINE ∧ is_shot_inside_3pt_arc x y 22 158

/-- Right elbow test (lines 169-171). -/
def cond_right_elbow (x y : ℚ) : Prop :=
  x < -CourtDimensions.OUTER_PAINT ∧ y > CourtDimensions.CORNER3_Y ∧
  is_shot_inside_3pt_arc x y 22 158

/-- Left elbow test (lines 177-179). -/
def cond_left_elbow (x y : ℚ) : Prop :=
  x > CourtDimensions.OUTER_PAINT ∧ y > CourtDimensions.CORNER3_Y ∧
  is_shot_inside_3pt_arc x y 22 158

/-- Right wing test (lines 185-187); note the swapped angle arguments
158, 22 in the arc call. -/
def cond_right_wing_3 (x y : ℚ) : Prop :=
  x < -CourtDimensions.RIGHT_WING_3 ∧ x > -CourtDimensions.SIDE_BOUNDARY ∧
  y > CourtDimensions.CORNER3_Y ∧ y < CourtDimensions.DEEP3_Y ∧
  ¬ is_shot_inside_3pt_arc x y 158 22

/-- Left wing test (lines 193-195). -/
def cond_left_wing_3 (x y : ℚ) : Prop :=
  x > CourtDimensions.RIGHT_WING_3 ∧ x < CourtDimensions.SIDE_BOUNDARY ∧
  y > CourtDimensions.CORNER3_Y ∧ y < CourtDimensions.DEEP3_Y ∧
  ¬ is_shot_inside_3pt_arc x y 158 22

/-- Top of key test (lines 201-203). -/
def cond_top_of_key_3 (x y : ℚ) : Prop :=
  x > -CourtDimensions.RIGHT_WING_3 ∧ x < CourtDimensions.RIGHT_WING_3 ∧
  y < CourtDimensions.DEEP3_Y ∧ ¬ is_shot_inside_3pt_arc x y 22 158

/-- Straight deep 3 test (lines 209-210). -/
def cond_straight_deep_3 (x y : ℚ) : Prop :=
  (x > CourtDimensions.DEEP3_Y ∧ x < CourtDimensions.HALFCOURT_BOUNDARY) ∧
  (y > -CourtDimensions.SIDE_BOUNDARY ∧ y < -CourtDimensions.DEEP3_X)

/-- Right deep 3 test (lines 216-217): the same two clauses as the
straight deep 3 test, in the opposite order. -/
def cond_right_deep_3 (x y : ℚ) : Prop :=
  (y > -CourtDimensions.SIDE_BOUNDARY ∧ y < -CourtDimensions.DEEP3_X) ∧
  (x > CourtDimensions.DEEP3_Y ∧ x < CourtDimensions.HALFCOURT_BOUNDARY)

/-- Left deep 3 test (lines 223-224). -/
def cond_left_deep_3 (x y : ℚ) : Prop :=
  (y < CourtDimensions.SIDE_BOUNDARY ∧ y > CourtDimensions.DEEP3_X) ∧
  (x > CourtDimensions.DEEP3_Y ∧ x < CourtDimensions.HALFCOURT_BOUNDARY)

open scoped Classical in
/-- The first-match-wins zone chain of process_shots_by_zones
(lines 123-227) as a classifier: the zone whose branch fires, or none
when every test fails (the row is silently dropped). -/
noncomputable def classify (x y : ℚ) : Option Zone :=
  if cond_right_corner_3 x y then some .right_corner_3
  else if cond_left_corner_3 x y then some .left_corner_3
  else if cond_paint x y then some .paint
  else if cond_right_block x y then some .right_block
  else if cond_left_block x y then some .left_block
  else if cond_high_post x y then some .high_post
  else if cond_right_elbow x y then some .right_elbow
  else if cond_left_elbow x y then some .left_elbow
  else if cond_right_wing_3 x y then some .right_wing_3
  else if cond_left_wing_3 x y then some .left_wing_3
  else if cond_top_of_key_3 x y then some .top_of_key_3
  else if cond_straight_deep_3 x y then some .straight_deep_3
  else if cond_right_deep_3 x y then some .right_deep_3
  else if cond_left_deep_3 x y then some .left_deep_3
  else none

/-- The three assignments of one zone branch: increment the key counter,
set attempted = made + missed, set percent = made / attempted.  All
three are plain Python ints, so a zero attempted would raise
ZeroDivisionError. -/
def zoneUpdate (r : StatRecord) (madeKey : Bool) : Except String StatRecord :=
  let r1 := if madeKey then { r with made := r.made + 1 } else { r with missed := r.missed + 1 }
  if r1.made + r1.missed = 0 then .error "ZeroDivisionError"
  else .ok { r1 with attempted := r1.made + r1.missed,
                     percent := (r1.made : ℚ) / ((r1.made + r1.missed : ℕ) : ℚ) }

/-- Apply the fired branch to the matching accumulator. -/
def applyZone (s : ZonesState) (z : Zone) (madeKey : Bool) : Except String ZonesState :=
  match z with
  | .right_corner_3 => Except.map (fun r => { s with right_corner_3 := r }) (zoneUpdate s.right_corner_3 madeKey)
  | .left_corner_3 => Except.map (fun r => { s with left_corner_3 := r }) (zoneUpdate s.left_corner_3 madeKey)
  | .paint => Except.map (fun r => { s with paint := r }) (zoneUpdate s.paint madeKey)
  | .right_block => Except.map (fun r => { s with right_block := r }) (zoneUpdate s.right_block madeKey)
  | .left_block => Except.map (fun r => { s with left_block := r }) (zoneUpdate s.left_block madeKey)
  | .high_post => Except.map (fun r => { s with high_post := r }) (zoneUpdate s.high_post madeKey)
  | .right_elbow => Except.map (fun r => { s with right_elbow := r }) (zoneUpdate s.right_elbow madeKey)
  | .left_elbow => Except.map (fun r => { s with left_elbow := r }) (zoneUpdate s.left_elbow madeKey)
  | .right_wing_3 => Except.map (fun r => { s with right_wing_3 := r }) (zoneUpdate s.right_wing_3 madeKey)
  | .left_wing_3 => Except.map (fun r => { s with left_wing_3 := r }) (zoneUpdate s.left_wing_3 madeKey)
  | .top_of_key_3 => Except.map (fun r => { s with top_of_key_3 := r }) (zoneUpdate s.top_of_key_3 madeKey)
  | .straight_deep_3 => Except.map (fun r => { s with straight_deep_3 := r }) (zoneUpdate s.straight_deep_3 madeKey)
  | .right_deep_3 => Except.map (fun r => { s with right_deep_3 := r }) (zoneUpdate s.right_deep_3 madeKey)
  | .left_deep_3 => Except.map (fun r => { s with left_deep_3 := r }) (zoneUpdate s.left_deep_3 madeKey)

/-- One iteration of the zones loop: the key is "made" when the event
type contains "Made", and the fired branch (if any) updates its
accumulator. -/
noncomputable def zoneRowStep (s : ZonesState) (row : ShotRow) : Except String ZonesState :=
  match classify row.loc_x row.loc_y with
  | none => .ok s
  | some z => applyZone s z (strContains row.event_type "Made")

/-- The zones loop from a given state. -/
noncomputable def processZonesFrom : ZonesState → List ShotRow → Except String ZonesState
  | s, [] => .ok s
  | s, row :: rest =>
      match zoneRowStep s row with
      | .ok s' => processZonesFrom s' rest
      | .error e => .error e

/-- process_shots_by_zones (lines 116-227), from the fresh accumulators. -/
noncomputable def process_shots_by_zones (rows : List ShotRow) : Except String ZonesState :=
  processZonesFrom initZones rows

/-- The attempted count carried by an entry: the sentinel carries none. -/
def entryAtt : Entry → ℕ
  | .intVal _ => 0
  | .statVal r => r.attempted

/-- The attempted counts accumulated over a whole table. -/
def attSum (t : Table) : ℕ := (t.map (fun e => entryAtt e.2)).sum

/-- The frequency fields accumulated over a whole table (sentinel
entries carry none). -/
def freqSum (t : Table) : ℚ :=
  (t.map (fun e => match e.2 with
    | .statVal r => r.frequency
    | .intVal _ => 0)).sum

/-- The bookkeeping invariant of a statistics record. -/
def recInv (r : StatRecord) : Prop := r.attempted = r.made + r.missed

/-- The bookkeeping invariant of a table entry (sentinels are exempt). -/
def entryInv : Entry → Prop
  | .intVal _ => True
  | .statVal r => recInv r

/-- Every entry of the table satisfies the bookkeeping invariant. -/
def tableInv (t : Table) : Prop := ∀ e ∈ t, entryInv e.2

theorem lookupEntry_mem {t : Table} {k : Label} {v : Entry}
    (h : lookupEntry t k = some v) : (k, v) ∈ t := by
  induction t with
  | nil => simp [lookupEntry] at h
  | cons e rest ih =>
    obtain ⟨k', v'⟩ := e
    by_cases hk : k' = k
    · subst hk
      simp [lookupEntry] at h
      simp [h]
    · simp [lookupEntry, hk] at h
      exact List.mem_cons_of_mem _ (ih h)

theorem lookupEntry_setEntry_self (t : Table) (k : Label) (v : Entry) :
    lookupEntry (setEntry t k v) k = some v := by
  induction t with
  | nil => simp [setEntry, lookupEntry]
  | cons e rest ih =>
    obtain ⟨k', v'⟩ := e
    by_cases hk : k' = k
    · subst hk; simp [setEntry, lookupEntry]
    · simp [setEntry, lookupEntry, hk, ih]

theorem mem_setEntry {t : Table} {k : Label} {v : Entry} {e : Label × Entry}
    (h : e ∈ setEntry t k v) : e = (k, v) ∨ e ∈ t := by
  induction t with
  | nil => simp [setEntry] at h; simp [h]
  | cons e' rest ih =>
    obtain ⟨k', v'⟩ := e'
    by_cases hk : k' = k
    · subst hk
      simp [setEntry] at h
      rcases h with h | h
      · exact Or.inl h
      · exact Or.inr (List.mem_cons_of_mem _ h)
    · simp [setEntry, hk] at h
      rcases h with h | h
      · exact Or.inr (by simp [h])
      · rcases ih h with h' | h'
        · exact Or.inl h'
        · exact Or.inr (List.mem_cons_of_mem _ h')

theorem tableInv_setEntry {t : Table} {k : Label} {v : Entry}
    (ht : tableInv t) (hv : entryInv v) : tableInv (setEntry t k v) := by
  intro e he
  rcases mem_setEntry he with h | h
  · rw [h]; exact hv
  · exact ht e h

theorem attSum_setEntry_none {t : Table} {k : Label} (v : Entry)
    (h : lookupEntry t k = none) :
    attSum (setEntry t k v) = attSum t + entryAtt v := by
  induction t with
  | nil => simp [setEntry, attSum]
  | cons e rest ih =>
    obtain ⟨k', v'⟩ := e
    by_cases hk : k' = k
    · subst hk; simp [lookupEntry] at h
    · simp [lookupEntry, hk] at h
      simp [setEntry, hk, attSum, List.map_cons] at ih ⊢
      rw [ih h]; ring

theorem attSum_setEntry_some {t : Table} {k : Label} {w : Entry} (v : Entry)
    (h : lookupEntry t k = some w) :
    attSum (setEntry t k v) + entryAtt w = attSum t + entryAtt v := by
  induction t with
  | nil => simp [lookupEntry] at h
  | cons e rest ih =>
    obtain ⟨k', v'⟩ := e
    by_cases hk : k' = k
    · subst hk
      simp [lookupEntry] at h
      subst h
      simp [setEntry, attSum, List.map_cons]
      ring
    · simp [lookupEntry, hk] at h
      simp [setEntry, hk, attSum, List.map_cons] at ih ⊢
      have := ih h
      omega

theorem updRecord_ok {t t' : Table} {k : Label} {r : StatRecord} {ev : String}
    (h : updRecord t k r ev = .ok t') :
    (bump r ev).made + (bump r ev).missed ≠ 0 ∧
    t' = setEntry t k (.statVal (finishRec (bump r ev))) := by
  unfold updRecord at h
  by_cases h0 : (bump r ev).made + (bump r ev).missed = 0
  · simp [h0] at h
  · simp [h0] at h
    exact ⟨h0, h.symm⟩

theorem updateTable_inv {t t' : Table} {k : Label} {ev : String}
    (ht : tableInv t) (h : updateTable t k ev = .ok t') : tableInv t' := by
  unfold updateTable at h
  have key : ∀ r : StatRecord, updRecord t k r ev = .ok t' → tableInv t' := by
    intro r hr
    obtain ⟨-, ht'⟩ := updRecord_ok hr
    rw [ht']
    exact tableInv_setEntry ht rfl
  match hl : lookupEntry t k with
  | none => rw [hl] at h; exact key _ h
  | some (.intVal n) =>
    rw [hl] at h
    by_cases hn : n = 0
    · simp [hn] at h; exact key _ h
    · simp [hn] at h
  | some (.statVal r) => rw [hl] at h; exact key _ h

theorem bump_counted {r : StatRecord} {ev : String}
    (hev : ev = "Made Shot" ∨ ev = "Missed Shot") :
    (bump r ev).made + (bump r ev).missed = r.made + r.missed + 1 := by
  rcases hev with hev | hev <;> subst hev <;> simp [bump] <;> omega

theorem entryAtt_finish (r : StatRecord) :
    entryAtt (.statVal (finishRec r)) = r.made + r.missed := rfl

theorem updateTable_attSum {t t' : Table} {k : Label} {ev : String}
    (ht : tableInv t) (hev : ev = "Made Shot" ∨ ev = "Missed Shot")
    (h : updateTable t k ev = .ok t') : attSum t' = attSum t + 1 := by
  unfold updateTable at h
  match hl : lookupEntry t k with
  | none =>
    rw [hl] at h
    obtain ⟨-, ht'⟩ := updRecord_ok h
    rw [ht', attSum_setEntry_none _ hl, entryAtt_finish, bump_counted hev]
    simp [freshRec]
  | some (.intVal n) =>
    rw [hl] at h
    by_cases hn : n = 0
    · simp [hn] at h
      obtain ⟨-, ht'⟩ := updRecord_ok h
      rw [ht']
      have := attSum_setEntry_some (t := t) (k := k)
        (.statVal (finishRec (bump freshRec ev))) hl
      rw [entryAtt_finish, bump_counted hev] at this
      simp only [entryAtt] at this
      have h0 : freshRec.made = 0 ∧ freshRec.missed = 0 := ⟨rfl, rfl⟩
      omega
    · simp [hn] at h
  | some (.statVal r) =>
    rw [hl] at h
    obtain ⟨-, ht'⟩ := updRecord_ok h
    have hinv : recInv r := ht _ (lookupEntry_mem hl)
    rw [ht']
    have := attSum_setEntry_some (t := t) (k := k)
      (.statVal (finishRec (bump r ev))) hl
    rw [entryAtt_finish, bump_counted hev] at this
    simp [entryAtt] at this
    unfold recInv at hinv
    omega

theorem mode_pass_inv_attSum {mode : String} {rows : List ShotRow} :
    ∀ {t T : Table}, tableInv t →
      (∀ r ∈ rows, r.event_type = "Made Shot" ∨ r.event_type = "Missed Shot") →
      process_shots_by_mode mode t rows = .ok T →
      tableInv T ∧ attSum T = attSum t + rows.length := by
  induction rows with
  | nil =>
    intro t T ht _ h
    unfold process_shots_by_mode at h
    simp at h
    subst h
    exact ⟨ht, by simp⟩
  | cons row rest ih =>
    intro t T ht hev h
    unfold process_shots_by_mode at h
    match hu : updateTable t (modeKey mode row) row.event_type with
    | .error e => rw [hu] at h; simp at h
    | .ok t1 =>
      rw [hu] at h
      have h1 : tableInv t1 := updateTable_inv ht hu
      have h2 : attSum t1 = attSum t + 1 :=
        updateTable_attSum ht (hev row (by simp)) hu
      obtain ⟨hT, hs⟩ := ih h1 (fun r hr => hev r (by simp [hr])) h
      refine ⟨hT, ?_⟩
      rw [hs, h2]
      simp [List.length_cons]
      omega

theorem freq_pass_sum {total : ℤ} : ∀ {t t' : Table},
    process_column_frequency t total = .ok t' →
    freqSum t' = (attSum t : ℚ) / (total : ℚ) := by
  intro t
  induction t with
  | nil =>
    intro t' h
    unfold process_column_frequency at h
    simp at h
    subst h
    simp [freqSum, attSum]
  | cons e rest ih =>
    intro t' h
    obtain ⟨k, v⟩ := e
    match v with
    | .intVal n => unfold process_column_frequency at h; simp at h
    | .statVal r =>
      unfold process_column_frequency at h
      match hr : process_column_frequency rest total with
      | .error e => rw [hr] at h; simp at h
      | .ok rest' =>
        rw [hr] at h
        simp at h
        subst h
        have := ih hr
        simp [freqSum, attSum, List.map_cons, entryAtt] at this ⊢
        rw [this, add_div]

/-- The bookkeeping invariant over all fourteen zone accumulators. -/
def ZonesInv (s : ZonesState) : Prop :=
  recInv s.right_corner_3 ∧ recInv s.right_block ∧ recInv s.right_elbow ∧
  recInv s.right_wing_3 ∧ recInv s.right_deep_3 ∧ recInv s.left_corner_3 ∧
  recInv s.left_block ∧ recInv s.left_elbow ∧ recInv s.left_wing_3 ∧
  recInv s.left_deep_3 ∧ recInv s.paint ∧ recInv s.high_post ∧
  recInv s.top_of_key_3 ∧ recInv s.straight_deep_3

theorem zonesInv_init : ZonesInv initZones :=
  ⟨rfl, rfl, rfl, rfl, rfl, rfl, rfl, rfl, rfl, rfl, rfl, rfl, rfl, rfl⟩

theorem zoneUpdate_ok (r : StatRecord) (b : Bool) :
    ∃ r', zoneUpdate r b = .ok r' ∧ recInv r' := by
  cases b <;> simp [zoneUpdate, recInv]

theorem applyZone_ok (s : ZonesState) (z : Zone) (b : Bool) (hs : ZonesInv s) :
    ∃ s', applyZone s z b = .ok s' ∧ ZonesInv s' ∧
      (z ≠ Zone.right_deep_3 → s'.right_deep_3 = s.right_deep_3) := by
  obtain ⟨i1, i2, i3, i4, i5, i6, i7, i8, i9, i10, i11, i12, i13, i14⟩ := hs
  cases z
  case right_corner_3 =>
    obtain ⟨r', hr, hv⟩ := zoneUpdate_ok s.right_corner_3 b
    refine ⟨{ s with right_corner_3 := r' }, ?_,
      ⟨hv, i2, i3, i4, i5, i6, i7, i8, i9, i10, i11, i12, i13, i14⟩, fun _ => rfl⟩
    simp [applyZone, hr, Except.map]
  case right_block =>
    obtain ⟨r', hr, hv⟩ := zoneUpdate_ok s.right_block b
    refine ⟨{ s with right_block := r' }, ?_,
      ⟨i1, hv, i3, i4, i5, i6, i7, i8, i9, i10, i11, i12, i13, i14⟩, fun _ => rfl⟩
    simp [applyZone, hr, Except.map]
  case right_elbow =>
    obtain ⟨r', hr, hv⟩ := zoneUpdate_ok s.right_elbow b
    refine ⟨{ s with right_elbow := r' }, ?_,
      ⟨i1, i2, hv, i4, i5, i6, i7, i8, i9, i10, i11, i12, i13, i14⟩, fun _ => rfl⟩
    simp [applyZone, hr, Except.map]
  case right_wing_3 =>
    obtain ⟨r', hr, hv⟩ := zoneUpdate_ok s.right_wing_3 b
    refine ⟨{ s with right_wing_3 := r' }, ?_,
      ⟨i1, i2, i3, hv, i5, i6, i7, i8, i9, i10, i11, i12, i13, i14⟩, fun _ => rfl⟩
    simp [applyZone, hr, Except.map]
  case right_deep_3 =>
    obtain ⟨r', hr, hv⟩ := zoneUpdate_ok s.right_deep_3 b
    refine ⟨{ s with right_deep_3 := r' }, ?_,
      ⟨i1, i2, i3, i4, hv, i6, i7, i8, i9, i10, i11, i12, i13, i14⟩,
      fun h => absurd rfl h⟩
    simp [applyZone, hr, Except.map]
  case left_corner_3 =>
    obtain ⟨r', hr, hv⟩ := zoneUpdate_ok s.left_corner_3 b
    refine ⟨{ s with left_corner_3 := r' }, ?_,
      ⟨i1, i2, i3, i4, i5, hv, i7, i8, i9, i10, i11, i12, i13, i14⟩, fun _ => rfl⟩
    simp [applyZone, hr, Except.map]
  case left_block =>
    obtain ⟨r', hr, hv⟩ := zoneUpdate_ok s.left_block b
    refine ⟨{ s with left_block := r' }, ?_,
      ⟨i1, i2, i3, i4, i5, i6, hv, i8, i9, i10, i11, i12, i13, i14⟩, fun _ => rfl⟩
    simp [applyZone, hr, Except.map]
  case left_elbow =>
    obtain ⟨r', hr, hv⟩ := zoneUpdate_ok s.left_elbow b
    refine ⟨{ s with left_elbow := r' }, ?_,
      ⟨i1, i2, i3, i4, i5, i6, i7, hv, i9, i10, i11, i12, i13, i14⟩, fun _ => rfl⟩
    simp [applyZone, hr, Except.map]
  case left_wing_3 =>
    obtain ⟨r', hr, hv⟩ := zoneUpdate_ok s.left_wing_3 b
    refine ⟨{ s with left_wing_3 := r' }, ?_,
      ⟨i1, i2, i3, i4, i5, i6, i7, i8, hv, i10, i11, i12, i13, i14⟩, fun _ => rfl⟩
    simp [applyZone, hr, Except.map]
  case left_deep_3 =>
    obtain ⟨r', hr, hv⟩ := zoneUpdate_ok s.left_deep_3 b
    refine ⟨{ s with left_deep_3 := r' }, ?_,
      ⟨i1, i2, i3, i4, i5, i6, i7, i8, i9, hv, i11, i12, i13, i14⟩, fun _ => rfl⟩
    simp [applyZone, hr, Except.map]
  case paint =>
    obtain ⟨r', hr, hv⟩ := zoneUpdate_ok s.paint b
    refine ⟨{ s with paint := r' }, ?_,
      ⟨i1, i2, i3, i4, i5, i6, i7, i8, i9, i10, hv, i12, i13, i14⟩, fun _ => rfl⟩
    simp [applyZone, hr, Except.map]
  case high_post =>
    obtain ⟨r', hr, hv⟩ := zoneUpdate_ok s.high_post b
    refine ⟨{ s with high_post := r' }, ?_,
      ⟨i1, i2, i3, i4, i5, i6, i7, i8, i9, i10, i11, hv, i13, i14⟩, fun _ => rfl⟩
    simp [applyZone, hr, Except.map]
  case top_of_key_3 =>
    obtain ⟨r', hr, hv⟩ := zoneUpdate_ok s.top_of_key_3 b
    refine ⟨{ s with top_of_key_3 := r' }, ?_,
      ⟨i1, i2, i3, i4, i5, i6, i7, i8, i9, i10, i11, i12, hv, i14⟩, fun _ => rfl⟩
    simp [applyZone, hr, Except.map]
  case straight_deep_3 =>
    obtain ⟨r', hr, hv⟩ := zoneUpdate_ok s.straight_deep_3 b
    refine ⟨{ s with straight_deep_3 := r' }, ?_,
      ⟨i1, i2, i3, i4, i5, i6, i7, i8, i9, i10, i11, i12, i13, hv⟩, fun _ => rfl⟩
    simp [applyZone, hr, Except.map]

theorem classify_ne_right_deep_3 (x y : ℚ) :
    classify x y ≠ some Zone.right_deep_3 := by
  intro h
  unfold classify at h
  by_cases h1 : cond_right_corner_3 x y
  · rw [if_pos h1] at h; simp at h
  rw [if_neg h1] at h
  by_cases h2 : cond_left_corner_3 x y
  · rw [if_pos h2] at h; simp at h
  rw [if_neg h2] at h
  by_cases h3 : cond_paint x y
  · rw [if_pos h3] at h; simp at h
  rw [if_neg h3] at h
  by_cases h4 : cond_right_block x y
  · rw [if_pos h4] at h; simp at h
  rw [if_neg h4] at h
  by_cases h5 : cond_left_block x y
  · rw [if_pos h5] at h; simp at h
  rw [if_neg h5] at h
  by_cases h6 : cond_high_post x y
  · rw [if_pos h6] at h; simp at h
  rw [if_neg h6] at h
  by_cases h7 : cond_right_elbow x y
  · rw [if_pos h7] at h; simp at h
  rw [if_neg h7] at h
  by_cases h8 : cond_left_elbow x y
  · rw [if_pos h8] at h; simp at h
  rw [if_neg h8] at h
  by_cases h9 : cond_right_wing_3 x y
  · rw [if_pos h9] at h; simp at h
  rw [if_neg h9] at h
  by_cases h10 : cond_left_wing_3 x y
  · rw [if_pos h10] at h; simp at h
  rw [if_neg h10] at h
  by_cases h11 : cond_top_of_key_3 x y
  · rw [if_pos h11] at h; simp at h
  rw [if_neg h11] at h
  by_cases h12 : cond_straight_deep_3 x y
  · rw [if_pos h12] at h; simp at h
  rw [if_neg h12] at h
  by_cases h13 : cond_right_deep_3 x y
  · unfold cond_right_deep_3 at h13
    unfold cond_straight_deep_3 at h12
    exact h12 ⟨h13.2, h13.1⟩
  rw [if_neg h13] at h
  by_cases h14 : cond_left_deep_3 x y
  · rw [if_pos h14] at h; simp at h
  · rw [if_neg h14] at h; simp at h

theorem zoneRowStep_ok (s : ZonesState) (row : ShotRow) (hs : ZonesInv s) :
    ∃ s', zoneRowStep s row = .ok s' ∧ ZonesInv s' ∧
      s'.right_deep_3 = s.right_deep_3 := by
  unfold zoneRowStep
  match hc : classify row.loc_x row.loc_y with
  | none => exact ⟨s, rfl, hs, rfl⟩
  | some z =>
    have hz : z ≠ Zone.right_deep_3 := by
      intro hzz
      exact classify_ne_right_deep_3 row.loc_x row.loc_y (hzz ▸ hc)
    obtain ⟨s', hs', hv, hp⟩ := applyZone_ok s z (strContains row.event_type "Made") hs
    exact ⟨s', hs', hv, hp hz⟩

theorem processZonesFrom_ok (rows : List ShotRow) :
    ∀ s : ZonesState, ZonesInv s →
      ∃ s', processZonesFrom s rows = .ok s' ∧ ZonesInv s' ∧
        s'.right_deep_3 = s.right_deep_3 := by
  induction rows with
  | nil => intro s hs; exact ⟨s, rfl, hs, rfl⟩
  | cons row rest ih =>
    intro s hs
    obtain ⟨s1, h1, hv1, hp1⟩ := zoneRowStep_ok s row hs
    obtain ⟨s', h', hv', hp'⟩ := ih s1 hv1
    refine ⟨s', ?_, hv', by rw [hp', hp1]⟩
    unfold processZonesFrom
    rw [h1]
    exact h'

theorem bump_other {r : StatRecord} {ev : String}
    (h1 : ev ≠ "Made Shot") (h2 : ev ≠ "Missed Shot") : bump r ev = r := by
  unfold bump
  rw [if_neg h1, if_neg h2]

theorem mode_pass_inv {mode : String} {rows : List ShotRow} :
    ∀ {t T : Table}, tableInv t → process_shots_by_mode mode t rows = .ok T →
      tableInv T := by
  induction rows with
  | nil =>
    intro t T ht h
    unfold process_shots_by_mode at h
    simp at h
    subst h
    exact ht
  | cons row rest ih =>
    intro t T ht h
    unfold process_shots_by_mode at h
    match hu : updateTable t (modeKey mode row) row.event_type with
    | .error e => rw [hu] at h; simp at h
    | .ok t1 => rw [hu] at h; exact ih (updateTable_inv ht hu) h

theorem sumAttFlags_all_ones : ∀ {rows : List ShotRow},
    (∀ r ∈ rows, r.shot_attempted_flag = 1) → sumAttFlags rows = (rows.length : ℤ) := by
  intro rows
  induction rows with
  | nil => intro _; rfl
  | cons r rest ih =>
    intro h
    have h1 := h r (by simp)
    have h2 := ih (fun x hx => h x (by simp [hx]))
    simp only [sumAttFlags, List.map_cons, List.sum_cons, List.length_cons] at h2 ⊢
    rw [h1, h2]
    push_cast
    ring

/-- The made counter the table holds at a key (0 at a sentinel or a
missing key). -/
def madeAt (t : Table) (k : Label) : ℕ :=
  match lookupEntry t k with
  | some (.statVal r) => r.made
  | _ => 0

/-- The missed counter the table holds at a key. -/
def missedAt (t : Table) (k : Label) : ℕ :=
  match lookupEntry t k with
  | some (.statVal r) => r.missed
  | _ => 0

/-- The attempted counter the table holds at a key. -/
def attemptedAt (t : Table) (k : Label) : ℕ :=
  match lookupEntry t k with
  | some (.statVal r) => r.attempted
  | _ => 0

/-- The key is absent, holds the integer sentinel 0, or holds a record
with zero made and missed counters: the states in which an update
reaches the percent division with attempted = 0. -/
def zeroCounts (t : Table) (k : Label) : Prop :=
  match lookupEntry t k with
  | none => True
  | some (.intVal n) => n = 0
  | some (.statVal r) => r.made = 0 ∧ r.missed = 0

/-- A two-point jump shot record with the given event type, distance and
made flag; the attempted flag is 1, as the data source sets it on every
fetched shot record. -/
def jumpRow (ev : String) (d : ℤ) (mf : ℤ) : ShotRow :=
  ⟨"2PT Field Goal", ev, "Jump Shot", d, 1, 0, 0, mf, 1⟩

/-- A made two-point jump shot from 3 feet. -/
def rowMade2 : ShotRow := jumpRow "Made Shot" 3 1

/-- A missed two-point jump shot from 5 feet. -/
def rowMiss2 : ShotRow := jumpRow "Missed Shot" 5 0

/-- A made three-point jump shot from 25 feet. -/
def rowMade3 : ShotRow := ⟨"3PT Field Goal", "Made Shot", "Jump Shot", 25, 1, 0, 0, 1, 1⟩

/-- The batch of the distance scenario: distances 3, 7, 22, 31 with
outcomes made, missed, made, missed. -/
def c4Rows : List ShotRow :=
  [jumpRow "Made Shot" 3 1, jumpRow "Missed Shot" 7 0,
   jumpRow "Made Shot" 22 1, jumpRow "Missed Shot" 31 0]

/-- The distance table after the mode scan of the distance scenario:
the four touched buckets carry their statistics, the three untouched
buckets still carry the integer sentinel. -/
def c4Table : Table :=
  [(.str "0 - 5", .statVal ⟨1, 0, 1, 1, 0⟩), (.str "5 - 10", .statVal ⟨0, 1, 1, 0, 0⟩),
   (.str "10 - 15", .intVal 0), (.str "15 - 20", .intVal 0),
   (.str "20 - 25", .statVal ⟨1, 0, 1, 1, 0⟩), (.str "25 - 30", .intVal 0),
   (.str "30+", .statVal ⟨0, 1, 1, 0, 0⟩)]

/-- The batch of the type scenario: ten two-point jump shots, six made
and four missed. -/
def c6Rows : List ShotRow :=
  [jumpRow "Made Shot" 15 1, jumpRow "Made Shot" 15 1, jumpRow "Made Shot" 15 1,
   jumpRow "Made Shot" 15 1, jumpRow "Made Shot" 15 1, jumpRow "Made Shot" 15 1,
   jumpRow "Missed Shot" 15 0, jumpRow "Missed Shot" 15 0, jumpRow "Missed Shot" 15 0,
   jumpRow "Missed Shot" 15 0]

/-- The points state the points pass computes for the singleton batch
with the one missed two-point shot rowMiss2. -/
def stMiss2Points : PointsState :=
  ⟨[rowMiss2], [], ⟨0, 0, 1, 0, 1⟩, ⟨0, 0, 0, 0, 0⟩, ⟨0, 0, 1, 0, 0⟩⟩

/-- The points state the points pass computes for the singleton batch
with the one made two-point shot rowMade2. -/
def stMade2Points : PointsState :=
  ⟨[], [rowMade2], ⟨1, 0, 1, 1, 1⟩, ⟨0, 0, 0, 0, 0⟩, ⟨1, 0, 1, 1, 0⟩⟩

/-- Claim C1 (code bug): the core does abort on well-formed batches.
The distance pass on a single made shot from 3 feet aborts with
TypeError: process_column_frequency subscripts the integer sentinel of
the six untouched distance buckets.  The points pass on a batch whose
only shot type is the three-pointer aborts with IndexError: the guarded
3PT branch reads position 1 of a one-group groupby result. -/
theorem C1_processing_pass_aborts :
    process_shots_by_distance [rowMade2] = .error "TypeError" ∧
    process_shots_by_points [rowMade3] = .error "IndexError" := by
  constructor
  · simp +decide [process_shots_by_distance, process_shots_by_mode, updateTable, updRecord,
      bump, finishRec, modeKey, lookupEntry, setEntry, freshRec, distanceInit, sumAttFlags,
      process_column_frequency, rowMade2, jumpRow]
  · simp +decide [process_shots_by_points, twoPointsCalc, threePointsCalc, groupSum,
      sortedShotTypes, sortStrings, insertSorted, sumMadeFlags, sumAttFlags, freshPointsRec,
      rowMade3, List.dedup_cons_of_mem, List.dedup_cons_of_not_mem]

/-- Claim C2, counterexample: the points pass on one missed two-point
shot leaves two_points with attempted = 1 but made = missed = 0, so
attempted is not made + missed in the points tables (the points pass
never writes the missed field). -/
theorem C2_points_table_counterexample :
    process_shots_by_points [rowMiss2] = .ok stMiss2Points ∧
    stMiss2Points.two_points.attempted = 1 ∧
    stMiss2Points.two_points.made + stMiss2Points.two_points.missed = 0 := by
  refine ⟨?_, by decide, by decide⟩
  simp +decide [process_shots_by_points, twoPointsCalc, threePointsCalc, groupSum,
    sortedShotTypes, sortStrings, insertSorted, sumMadeFlags, sumAttFlags, freshPointsRec,
    rowMiss2, jumpRow, stMiss2Points, List.dedup_cons_of_mem, List.dedup_cons_of_not_mem]

/-- Claim C2 (amended): after every completed update, attempted equals
made + missed in every per-mode aggregation table record and in every
zone accumulator; the points tables are excluded, since their missed
field is never written. -/
theorem C2_attempted_invariant :
    (∀ (t : Table) (k : Label) (ev : String) (t' : Table),
        tableInv t → updateTable t k ev = .ok t' → tableInv t') ∧
    (∀ (mode : String) (rows : List ShotRow) (t T : Table),
        tableInv t → process_shots_by_mode mode t rows = .ok T → tableInv T) ∧
    (∀ (rows : List ShotRow) (s : ZonesState),
        process_shots_by_zones rows = .ok s → ZonesInv s) := by
  refine ⟨fun t k ev t' ht h => updateTable_inv ht h,
          fun mode rows t T ht h => mode_pass_inv ht h,
          fun rows s h => ?_⟩
  obtain ⟨s', h', hv, -⟩ := processZonesFrom_ok rows initZones zonesInv_init
  unfold process_shots_by_zones at h
  rw [h'] at h
  rw [Except.ok.injEq] at h
  subst h
  exact hv

/-- Claim C2, witness: the invariant holds on the concrete type table of
a one-record scan. -/
theorem C2_attempted_invariant_witness :
    tableInv [(Label.str "2PT Field Goal", Entry.statVal ⟨1, 0, 1, 1, 0⟩)] :=
  C2_attempted_invariant.2.1 "type" [rowMade2] []
    [(Label.str "2PT Field Goal", Entry.statVal ⟨1, 0, 1, 1, 0⟩)]
    (fun e he => absurd he (List.not_mem_nil e))
    (by simp +decide [process_shots_by_mode, updateTable, updRecord, bump, finishRec,
      modeKey, lookupEntry, setEntry, freshRec, rowMade2, jumpRow])

/-- Claim C3, counterexample: on the singleton batch with one made shot
(made flag 1) the stored shots_made subset is empty rather than holding
that record, and the record sits in shots_missed instead. -/
theorem C3_made_subset_counterexample :
    process_shots_by_points [rowMade2] = .ok stMade2Points ∧
    rowMade2.shot_made_flag = 1 ∧
    stMade2Points.shots_made = [] ∧
    stMade2Points.shots_missed = [rowMade2] ∧
    stMade2Points.shots_made ≠ [rowMade2] := by
  refine ⟨?_, by decide, by decide, by decide, by decide⟩
  simp +decide [process_shots_by_points, twoPointsCalc, threePointsCalc, groupSum,
    sortedShotTypes, sortStrings, insertSorted, sumMadeFlags, sumAttFlags, freshPointsRec,
    rowMade2, jumpRow, stMade2Points, List.dedup_cons_of_mem, List.dedup_cons_of_not_mem]

/-- Claim C3 (amended): the two stored subsets are swapped relative to
their names: after the points pass, shots_made holds exactly the records
with made flag 0 and shots_missed exactly those with made flag 1. -/
theorem C3_subsets_swapped (rows : List ShotRow) (st : PointsState)
    (h : process_shots_by_points rows = .ok st) :
    st.shots_made = rows.filter (fun r => r.shot_made_flag == 0) ∧
    st.shots_missed = rows.filter (fun r => r.shot_made_flag == 1) := by
  unfold process_shots_by_points at h
  cases h2 : twoPointsCalc rows with
  | error e => simp [h2] at h
  | ok two =>
    cases h3 : threePointsCalc rows with
    | error e => simp [h2, h3] at h
    | ok three =>
      simp only [h2, h3, Except.ok.injEq] at h
      subst h
      exact ⟨rfl, rfl⟩

/-- Claim C3, witness: the swapped-subsets statement at the concrete
one-missed-shot batch. -/
theorem C3_subsets_swapped_witness :
    stMiss2Points.shots_made = [rowMiss2].filter (fun r => r.shot_made_flag == 0) ∧
    stMiss2Points.shots_missed = [rowMiss2].filter (fun r => r.shot_made_flag == 1) :=
  C3_subsets_swapped [rowMiss2] stMiss2Points
    (by simp +decide [process_shots_by_points, twoPointsCalc, threePointsCalc, groupSum,
      sortedShotTypes, sortStrings, insertSorted, sumMadeFlags, sumAttFlags, freshPointsRec,
      rowMiss2, jumpRow, stMiss2Points, List.dedup_cons_of_mem, List.dedup_cons_of_not_mem])

/-- Claim C4 (code bug): on the distance scenario (distances 3, 7, 22,
31; outcomes made, missed, made, missed) the mode scan does produce the
four claimed bucket records (made, missed, attempted and percent as the
claim states, frequencies still 0), but the frequency finalisation then
aborts with TypeError at the untouched bucket 10 - 15, so the pass never
delivers the claimed 0.25 frequencies. -/
theorem C4_distance_scenario_crash :
    process_shots_by_mode "distance" distanceInit c4Rows = .ok c4Table ∧
    process_shots_by_distance c4Rows = .error "TypeError" := by
  constructor
  · simp +decide [process_shots_by_mode, updateTable, updRecord, bump, finishRec, modeKey,
      lookupEntry, setEntry, freshRec, distanceInit, c4Rows, jumpRow, c4Table]
  · simp +decide [process_shots_by_distance, process_shots_by_mode, updateTable, updRecord,
      bump, finishRec, modeKey, lookupEntry, setEntry, freshRec, distanceInit, sumAttFlags,
      process_column_frequency, c4Rows, jumpRow]

/-- Claim C5, counterexample: an update whose outcome is the foreign
event type Travel on a fresh label raises ZeroDivisionError in the
percent recomputation rather than reporting a defined undefined value. -/
theorem C5_zero_division_counterexample :
    ("Travel" ≠ "Made Shot" ∧ "Travel" ≠ "Missed Shot") ∧
    updateTable [] (Label.str "2PT Field Goal") "Travel" = .error "ZeroDivisionError" :=
  ⟨⟨by decide, by decide⟩, by decide⟩

/-- Claim C5 (amended): an update whose outcome is neither "Made Shot"
nor "Missed Shot" leaves the made and missed counters unchanged and
counts no attempt; but whenever such an update reaches the percent
recomputation with attempted = 0 (absent key, sentinel, or a record with
zero counters) the code raises ZeroDivisionError instead of reporting an
undefined value. -/
theorem C5_ignored_outcome :
    (∀ (t : Table) (k : Label) (ev : String) (t' : Table),
        ev ≠ "Made Shot" → ev ≠ "Missed Shot" → updateTable t k ev = .ok t' →
        madeAt t' k = madeAt t k ∧ missedAt t' k = missedAt t k ∧
        attemptedAt t' k = madeAt t k + missedAt t k) ∧
    (∀ (t : Table) (k : Label) (ev : String),
        ev ≠ "Made Shot" → ev ≠ "Missed Shot" → zeroCounts t k →
        updateTable t k ev = .error "ZeroDivisionError") := by
  constructor
  · intro t k ev t' h1 h2 h
    match hl : lookupEntry t k with
    | none =>
      simp only [updateTable, hl] at h
      unfold updRecord at h
      rw [bump_other h1 h2] at h
      simp [freshRec] at h
    | some (.intVal n) =>
      simp only [updateTable, hl] at h
      by_cases hn : n = 0
      · simp only [hn, if_pos] at h
        unfold updRecord at h
        rw [bump_other h1 h2] at h
        simp [freshRec] at h
      · simp [hn] at h
    | some (.statVal r) =>
      simp only [updateTable, hl] at h
      unfold updRecord at h
      rw [bump_other h1 h2] at h
      by_cases hz : r.made + r.missed = 0
      · simp [hz] at h
      · simp only [hz, if_neg, Except.ok.injEq, if_false] at h
        subst h
        refine ⟨?_, ?_, ?_⟩ <;>
          simp [madeAt, missedAt, attemptedAt, lookupEntry_setEntry_self, finishRec, hl]
  · intro t k ev h1 h2 hz
    match hl : lookupEntry t k with
    | none =>
      simp only [updateTable, hl]
      unfold updRecord
      rw [bump_other h1 h2]
      simp [freshRec]
    | some (.intVal n) =>
      have hn : n = 0 := by simpa [zeroCounts, hl] using hz
      subst hn
      simp only [updateTable, hl, if_pos]
      unfold updRecord
      rw [bump_other h1 h2]
      simp [freshRec]
    | some (.statVal r) =>
      have hzz : r.made = 0 ∧ r.missed = 0 := by simpa [zeroCounts, hl] using hz
      simp only [updateTable, hl]
      unfold updRecord
      rw [bump_other h1 h2]
      simp [hzz.1, hzz.2]

/-- Claim C5, witness: the raising half at a concrete input: an ignored
outcome on an empty table ends in ZeroDivisionError. -/
theorem C5_ignored_outcome_witness :
    updateTable [] (Label.str "Layup") "Offensive Foul" = .error "ZeroDivisionError" :=
  C5_ignored_outcome.2 [] (Label.str "Layup") "Offensive Foul"
    (by decide) (by decide) (by simp [zeroCounts, lookupEntry])

/-- Claim C6: the type scenario: ten two-point jump shots, six made and
four missed, produce a type table with the single entry 2PT Field Goal
carrying made 6, missed 4, attempted 10, percent 3/5 = 0.6 and
frequency 1. -/
theorem C6_type_scenario :
    process_shots_by_type c6Rows =
      .ok [(Label.str "2PT Field Goal", Entry.statVal ⟨6, 4, 10, 3/5, 1⟩)] := by
  simp +decide [process_shots_by_type, process_shots_by_mode, updateTable, updRecord, bump,
    finishRec, modeKey, lookupEntry, setEntry, freshRec, sumAttFlags,
    process_column_frequency, c6Rows, jumpRow]
  norm_num

/-- Claim C7: when every record of the batch is a counted attempt (event
type Made Shot or Missed Shot, attempted flag 1) and the batch is not
empty, any mode table built from an initial table with no accumulated
attempts that passes frequency finalisation has frequencies summing to
exactly 1. -/
theorem C7_frequency_sum (mode : String) (rows : List ShotRow) (t0 T T' : Table)
    (h0 : tableInv t0) (ha : attSum t0 = 0)
    (hev : ∀ r ∈ rows, r.event_type = "Made Shot" ∨ r.event_type = "Missed Shot")
    (hfl : ∀ r ∈ rows, r.shot_attempted_flag = 1)
    (hne : rows ≠ [])
    (hm : process_shots_by_mode mode t0 rows = .ok T)
    (hf : process_column_frequency T (sumAttFlags rows) = .ok T') :
    freqSum T' = 1 := by
  obtain ⟨-, hatt⟩ := mode_pass_inv_attSum h0 hev hm
  have hfs := freq_pass_sum hf
  rw [hfs, hatt, ha, zero_add, sumAttFlags_all_ones hfl]
  have hlen : rows.length ≠ 0 := fun hl => hne (List.length_eq_zero.mp hl)
  rw [Int.cast_natCast]
  exact div_self (Nat.cast_ne_zero.mpr hlen)

/-- Claim C7, witness: the frequency sum is 1 on the concrete finalised
type table of a one-record batch. -/
theorem C7_frequency_sum_witness :
    freqSum [(Label.str "2PT Field Goal", Entry.statVal ⟨1, 0, 1, 1, 1⟩)] = 1 :=
  C7_frequency_sum "type" [rowMade2] []
    [(Label.str "2PT Field Goal", Entry.statVal ⟨1, 0, 1, 1, 0⟩)]
    [(Label.str "2PT Field Goal", Entry.statVal ⟨1, 0, 1, 1, 1⟩)]
    (fun e he => absurd he (List.not_mem_nil e)) rfl
    (by simp [rowMade2, jumpRow]) (by simp [rowMade2, jumpRow]) (by simp)
    (by simp +decide [process_shots_by_mode, updateTable, updRecord, bump, finishRec,
      modeKey, lookupEntry, setEntry, freshRec, rowMade2, jumpRow])
    (by simp +decide [process_column_frequency, sumAttFlags, rowMade2, jumpRow])

/-- Claim C8: the zones pass is total and never raises: on every record
sequence it returns a state (the inner percent division always has a
positive denominator), and the classifier maps every coordinate pair to
either no zone or exactly one of the fourteen zones. -/
theorem C8_zones_never_throw :
    (∀ rows : List ShotRow, ∃ s, process_shots_by_zones rows = .ok s) ∧
    (∀ x y : ℚ, classify x y = none ∨ ∃ z, classify x y = some z) := by
  constructor
  · intro rows
    obtain ⟨s, h, -, -⟩ := processZonesFrom_ok rows initZones zonesInv_init
    exact ⟨s, h⟩
  · intro x y
    cases hc : classify x y with
    | none => exact Or.inl rfl
    | some z => exact Or.inr ⟨z, rfl⟩

/-- Claim C9: the right deep 3 branch repeats the straight deep 3 test
with its two clauses swapped, so it can never fire: on every record
sequence the zones pass succeeds with the right_deep_3 accumulator still
in its all-zero initial state. -/
theorem C9_right_deep_3_dead (rows : List ShotRow) :
    Except.map (fun s => s.right_deep_3) (process_shots_by_zones rows) = .ok freshRec := by
  obtain ⟨s, h, -, hp⟩ := processZonesFrom_ok rows initZones zonesInv_init
  unfold process_shots_by_zones
  rw [h]
  simp only [Except.map]
  rw [hp]
  rfl

/-- Claim C10, counterexample: the claim uses the untruncated bound
-47.5; at LOC_Y = -47 (inside the claimed open interval, since the
IntEnum truncates FRONTCOURT_BOUNDARY to -47) with LOC_X = 1000 all four
earlier branches reject the record, yet the left-block branch rejects it
too and the whole chain classifies it as no zone at all. -/
theorem C10_left_block_counterexample :
    ((-47.5 : ℚ) < -47 ∧ ((-47 : ℚ)) < 80) ∧
    ¬ cond_right_corner_3 1000 (-47) ∧ ¬ cond_left_corner_3 1000 (-47) ∧
    ¬ cond_paint 1000 (-47) ∧ ¬ cond_right_block 1000 (-47) ∧
    classify 1000 (-47) = none := by
  have hc1 : ¬ cond_right_corner_3 1000 (-47) := by
    norm_num [cond_right_corner_3, CourtDimensions.SIDE_BOUNDARY, CourtDimensions.CORNER3_X]
  have hc2 : ¬ cond_left_corner_3 1000 (-47) := by
    norm_num [cond_left_corner_3, CourtDimensions.SIDE_BOUNDARY, CourtDimensions.CORNER3_X]
  have hc3 : ¬ cond_paint 1000 (-47) := by
    norm_num [cond_paint, CourtDimensions.OUTER_PAINT]
  have hc4 : ¬ cond_right_block 1000 (-47) := by
    norm_num [cond_right_block, CourtDimensions.OUTER_PAINT]
  have hc5 : ¬ cond_left_block 1000 (-47) := by
    norm_num [cond_left_block, CourtDimensions.OUTER_PAINT, CourtDimensions.CORNER3_Y,
      CourtDimensions.FRONTCOURT_BOUNDARY]
  have hc6 : ¬ cond_high_post 1000 (-47) := by
    norm_num [cond_high_post, CourtDimensions.OUTER_PAINT]
  have hc7 : ¬ cond_right_elbow 1000 (-47) := by
    norm_num [cond_right_elbow, CourtDimensions.OUTER_PAINT]
  have hc8 : ¬ cond_left_elbow 1000 (-47) := by
    norm_num [cond_left_elbow, CourtDimensions.OUTER_PAINT, CourtDimensions.CORNER3_Y]
  have hc9 : ¬ cond_right_wing_3 1000 (-47) := by
    norm_num [cond_right_wing_3, CourtDimensions.RIGHT_WING_3]
  have hc10 : ¬ cond_left_wing_3 1000 (-47) := by
    norm_num [cond_left_wing_3, CourtDimensions.RIGHT_WING_3, CourtDimensions.SIDE_BOUNDARY]
  have hc11 : ¬ cond_top_of_key_3 1000 (-47) := by
    norm_num [cond_top_of_key_3, CourtDimensions.RIGHT_WING_3]
  have hc12 : ¬ cond_straight_deep_3 1000 (-47) := by
    norm_num [cond_straight_deep_3, CourtDimensions.DEEP3_Y, CourtDimensions.HALFCOURT_BOUNDARY]
  have hc13 : ¬ cond_right_deep_3 1000 (-47) := by
    norm_num [cond_right_deep_3, CourtDimensions.SIDE_BOUNDARY, CourtDimensions.DEEP3_X]
  have hc14 : ¬ cond_left_deep_3 1000 (-47) := by
    norm_num [cond_left_deep_3, CourtDimensions.SIDE_BOUNDARY, CourtDimensions.DEEP3_X]
  refine ⟨by norm_num, hc1, hc2, hc3, hc4, ?_⟩
  unfold classify
  rw [if_neg hc1, if_neg hc2, if_neg hc3, if_neg hc4, if_neg hc5, if_neg hc6, if_neg hc7,
    if_neg hc8, if_neg hc9, if_neg hc10, if_neg hc11, if_neg hc12, if_neg hc13, if_neg hc14]

/-- Claim C10 (amended): the left-block test constrains only LOC_Y (the
code bound is the truncated -47, not -47.5): every coordinate pair with
-47 < LOC_Y < 80 that the right-corner-3, left-corner-3, paint and
right-block branches all reject is classified left_block, whatever its
LOC_X. -/
theorem C10_left_block_ignores_x (x y : ℚ) (hy1 : (-47 : ℚ) < y) (hy2 : y < 80)
    (h1 : ¬ cond_right_corner_3 x y) (h2 : ¬ cond_left_corner_3 x y)
    (h3 : ¬ cond_paint x y) (h4 : ¬ cond_right_block x y) :
    classify x y = some Zone.left_block := by
  have h5 : cond_left_block x y := by
    unfold cond_left_block CourtDimensions.OUTER_PAINT CourtDimensions.CORNER3_Y
      CourtDimensions.FRONTCOURT_BOUNDARY
    exact ⟨⟨by linarith, by linarith⟩, by linarith, by linarith⟩
  unfold classify
  rw [if_neg h1, if_neg h2, if_neg h3, if_neg h4, if_pos h5]

/-- Claim C10, witness: the far-out-of-court coordinate (1000, 0) lands
in left_block. -/
theorem C10_left_block_witness :
    ((-47 : ℚ) < 0 ∧ (0 : ℚ) < 80) ∧ classify 1000 0 = some Zone.left_block :=
  ⟨⟨by norm_num, by norm_num⟩,
   C10_left_block_ignores_x 1000 0 (by norm_num) (by norm_num)
     (by norm_num [cond_right_corner_3, CourtDimensions.SIDE_BOUNDARY,
        CourtDimensions.CORNER3_X])
     (by norm_num [cond_left_corner_3, CourtDimensions.SIDE_BOUNDARY,
        CourtDimensions.CORNER3_X])
     (by norm_num [cond_paint, CourtDimensions.OUTER_PAINT])
     (by norm_num [cond_right_block, CourtDimensions.OUTER_PAINT])⟩
